import Mathlib

/- Formal model of the TraidingSystem_Forex_Crypto repository.

   Part 1 embeds the TypeScript dashboard (src/dashboard-web): the data
   types of src/types/trading.ts, the verdict logic of EntryChecklist.tsx,
   DecisionPath.tsx, MtfTable.tsx, VixGauge, the SignalCard distance
   computations (over a small model of JavaScript number arithmetic), the
   dashboard page defaults, and the field lists of the api.ts interfaces.

   Part 2 models the backend decision pipeline, whose Python sources
   (aggregator, risk_management, strategies, config) are not part of the
   checked tree: those definitions are modelled from the specification and
   are marked as such in their doc comments.

   Numbers are embedded as rationals; JavaScript division by zero, which
   one claim is about, is modelled explicitly by a JS-number type with
   NaN and infinities. -/

namespace TradingSystem

/-- From src/dashboard-web/src/types/trading.ts: SignalDirection. -/
inductive SignalDirection
  | long
  | short
  | hold
deriving DecidableEq, Repr

/-- From src/dashboard-web/src/types/trading.ts: TimeHorizon. -/
inductive TimeHorizon
  | scalp
  | day
  | swing
  | position
deriving DecidableEq, Repr

/-- From src/dashboard-web/src/types/trading.ts and api.ts: TrendDirection
    ('bullish' | 'bearish' | 'neutral'). -/
inductive TrendDirection
  | bullish
  | bearish
  | neutral
deriving DecidableEq, Repr

/-- From src/dashboard-web/src/types/trading.ts: TradingSignal. -/
structure TradingSignal where
  asset : String
  direction : SignalDirection
  confidence : ℚ
  entry : ℚ
  stopLoss : ℚ
  takeProfit : ℚ
  horizon : TimeHorizon
  riskReward : ℚ
  positionSize : ℚ
  timestamp : String
deriving DecidableEq, Repr

/-- From src/dashboard-web/src/types/trading.ts: EntryCondition. -/
structure EntryCondition where
  name : String
  met : Bool
  value : Option String
  required : Bool
deriving DecidableEq, Repr

/-- From src/dashboard-web/src/types/trading.ts: MTFAnalysis. -/
structure MTFAnalysis where
  timeframe : String
  trend : TrendDirection
  signal : ℚ
  aligned : Bool
deriving DecidableEq, Repr

/-- From src/dashboard-web/src/types/trading.ts: DecisionStep. -/
structure DecisionStep where
  step : String
  passed : Bool
  detail : String
deriving DecidableEq, Repr

/-- EntryChecklist.tsx line 10: `metCount = conditions.filter(c => c.met).length`. -/
def metCount (conditions : List EntryCondition) : Nat :=
  (conditions.filter (fun c => c.met)).length

/-- EntryChecklist.tsx line 11:
    `requiredMet = conditions.filter(c => c.required && c.met).length`. -/
def requiredMet (conditions : List EntryCondition) : Nat :=
  (conditions.filter (fun c => c.required && c.met)).length

/-- EntryChecklist.tsx line 12:
    `requiredTotal = conditions.filter(c => c.required).length`. -/
def requiredTotal (conditions : List EntryCondition) : Nat :=
  (conditions.filter (fun c => c.required)).length

/-- EntryChecklist.tsx line 13: `allRequiredMet = requiredMet === requiredTotal`. -/
def allRequiredMet (conditions : List EntryCondition) : Bool :=
  requiredMet conditions == requiredTotal conditions

/-- EntryChecklist.tsx line 61: the verdict line shown at the bottom of the
    checklist card is chosen solely by `allRequiredMet`. -/
def entryChecklistVerdict (conditions : List EntryCondition) : String :=
  if allRequiredMet conditions then ("✅ Entry Allowed")
  else ("⚠️ Waiting for conditions")

/-- DecisionPath.tsx line 12: `allPassed = steps.every(s => s.passed)`. -/
def allPassed (steps : List DecisionStep) : Bool :=
  steps.all (fun s => s.passed)

/-- DecisionPath.tsx line 52: the result banner text. -/
def decisionPathResult (steps : List DecisionStep) : String :=
  if allPassed steps then ("→ RESULT: Trade Signal Generated")
  else ("→ RESULT: No Trade")

/-- MtfTable.tsx line 10: `alignedCount = analysis.filter(a => a.aligned).length`. -/
def alignedCount (analysis : List MTFAnalysis) : Nat :=
  (analysis.filter (fun a => a.aligned)).length

/-- MtfTable.tsx lines 11-15: the alignment classification
    `alignedCount === analysis.length ? 'Perfect' : alignedCount >= 2 ? 'Good' : 'Weak'`. -/
def mtfAlignmentLabel (analysis : List MTFAnalysis) : String :=
  if alignedCount analysis = analysis.length then ("Perfect")
  else if 2 ≤ alignedCount analysis then ("Good")
  else ("Weak")

/-- EntryChecklist.tsx (VixGauge) lines 85-90: the volatility label. -/
def vixGaugeLabel (value : ℚ) : String :=
  if value < 15 then ("Low")
  else if value < 25 then ("Normal")
  else if value < 30 then ("Elevated")
  else ("High")

/-- A small model of JavaScript number values: a finite rational, NaN, or a
    signed infinity. Only the operations SignalCard.tsx uses are modelled. -/
inductive JSNumber
  | num (q : ℚ)
  | nan
  | posInf
  | negInf
deriving DecidableEq, Repr

/-- JavaScript subtraction on the modelled values (finite operands are exact
    here; rounding does not matter for the inputs the claims evaluate). -/
def jsSub : JSNumber → JSNumber → JSNumber
  | JSNumber.num a, JSNumber.num b => JSNumber.num (a - b)
  | JSNumber.nan, _ => JSNumber.nan
  | _, JSNumber.nan => JSNumber.nan
  | JSNumber.posInf, JSNumber.posInf => JSNumber.nan
  | JSNumber.negInf, JSNumber.negInf => JSNumber.nan
  | JSNumber.posInf, _ => JSNumber.posInf
  | JSNumber.negInf, _ => JSNumber.negInf
  | JSNumber.num _, JSNumber.posInf => JSNumber.negInf
  | JSNumber.num _, JSNumber.negInf => JSNumber.posInf

/-- JavaScript division: `0/0` is NaN, `a/0` with `a ≠ 0` is a signed
    infinity (the divisor is the literal +0 in the modelled code). -/
def jsDiv : JSNumber → JSNumber → JSNumber
  | JSNumber.num a, JSNumber.num b =>
      if b = 0 then
        if a = 0 then JSNumber.nan
        else if 0 < a then JSNumber.posInf else JSNumber.negInf
      else JSNumber.num (a / b)
  | JSNumber.nan, _ => JSNumber.nan
  | _, JSNumber.nan => JSNumber.nan
  | JSNumber.posInf, JSNumber.posInf => JSNumber.nan
  | JSNumber.posInf, JSNumber.negInf => JSNumber.nan
  | JSNumber.negInf, JSNumber.posInf => JSNumber.nan
  | JSNumber.negInf, JSNumber.negInf => JSNumber.nan
  | JSNumber.posInf, JSNumber.num b =>
      if 0 ≤ b then JSNumber.posInf else JSNumber.negInf
  | JSNumber.negInf, JSNumber.num b =>
      if 0 ≤ b then JSNumber.negInf else JSNumber.posInf
  | JSNumber.num _, JSNumber.posInf => JSNumber.num 0
  | JSNumber.num _, JSNumber.negInf => JSNumber.num 0

/-- JavaScript multiplication on the modelled values. -/
def jsMul : JSNumber → JSNumber → JSNumber
  | JSNumber.num a, JSNumber.num b => JSNumber.num (a * b)
  | JSNumber.nan, _ => JSNumber.nan
  | _, JSNumber.nan => JSNumber.nan
  | JSNumber.posInf, JSNumber.posInf => JSNumber.posInf
  | JSNumber.posInf, JSNumber.negInf => JSNumber.negInf
  | JSNumber.negInf, JSNumber.posInf => JSNumber.negInf
  | JSNumber.negInf, JSNumber.negInf => JSNumber.posInf
  | JSNumber.posInf, JSNumber.num b =>
      if b = 0 then JSNumber.nan else if 0 < b then JSNumber.posInf else JSNumber.negInf
  | JSNumber.negInf, JSNumber.num b =>
      if b = 0 then JSNumber.nan else if 0 < b then JSNumber.negInf else JSNumber.posInf
  | JSNumber.num a, JSNumber.posInf =>
      if a = 0 then JSNumber.nan else if 0 < a then JSNumber.posInf else JSNumber.negInf
  | JSNumber.num a, JSNumber.negInf =>
      if a = 0 then JSNumber.nan else if 0 < a then JSNumber.negInf else JSNumber.posInf

/-- `Number.isFinite` on the modelled values. -/
def jsIsFinite : JSNumber → Bool
  | JSNumber.num _ => true
  | _ => false

/-- SignalCard.tsx line 32:
    `slDistance = ((signal.entry - signal.stopLoss) / signal.entry * 100)`. -/
def slDistance (signal : TradingSignal) : JSNumber :=
  jsMul (jsDiv (jsSub (JSNumber.num signal.entry) (JSNumber.num signal.stopLoss))
               (JSNumber.num signal.entry))
        (JSNumber.num 100)

/-- SignalCard.tsx line 33:
    `tpDistance = ((signal.takeProfit - signal.entry) / signal.entry * 100)`. -/
def tpDistance (signal : TradingSignal) : JSNumber :=
  jsMul (jsDiv (jsSub (JSNumber.num signal.takeProfit) (JSNumber.num signal.entry))
               (JSNumber.num signal.entry))
        (JSNumber.num 100)

/-- Dashboard page (src/unnamed/part_001 lines 59-70): the placeholder
    signal the page builds when no analysis is loaded; all price fields 0. -/
def defaultHoldSignal (selectedAsset : String) (now : String) : TradingSignal :=
  { asset := selectedAsset
    direction := SignalDirection.hold
    confidence := 0
    entry := 0
    stopLoss := 0
    takeProfit := 0
    horizon := TimeHorizon.day
    riskReward := 0
    positionSize := 0
    timestamp := now }

/-- Field names of interface TradingSignal, src/dashboard-web/src/lib/api.ts
    lines 15-26, in declaration order. -/
def tradingSignalFields : List String :=
  [("asset"), ("direction"), ("confidence"), ("entry"), ("stopLoss"),
   ("takeProfit"), ("horizon"), ("riskReward"), ("positionSize"), ("timestamp")]

/-- Field names of interface AnalysisResponse, api.ts lines 67-74. -/
def analysisResponseFields : List String :=
  [("signal"), ("entryConditions"), ("mtfAnalysis"), ("decisionPath"),
   ("analysisTime"), ("timestamp")]

/-- Field names of interface MarketContext, api.ts lines 28-36. -/
def marketContextFields : List String :=
  [("vix"), ("vixRegime"), ("fearGreed"), ("fearGreedLabel"), ("session"),
   ("sessionQuality"), ("tradingStatus")]

/-- Field names of interface EntryCondition, api.ts lines 38-43. -/
def entryConditionFields : List String :=
  [("name"), ("met"), ("value"), ("required")]

/-- Field names of interface MTFAnalysis, api.ts lines 45-50. -/
def mtfAnalysisFields : List String :=
  [("timeframe"), ("trend"), ("signal"), ("aligned")]

/-- Field names of interface DecisionStep, api.ts lines 52-56. -/
def decisionStepFields : List String :=
  [("step"), ("passed"), ("detail")]

/-- Field names of interface RiskMetrics, api.ts lines 58-65. -/
def riskMetricsFields : List String :=
  [("dailyDrawdown"), ("maxDrawdown"), ("openPositions"), ("maxPositions"),
   ("capitalAtRisk"), ("riskPercentage")]

/-- Field names of interface SignalSummary, api.ts lines 76-81. -/
def signalSummaryFields : List String :=
  [("asset"), ("direction"), ("confidence"), ("horizon")]

/-- Field names of interface ApiError, api.ts lines 7-10. -/
def apiErrorFields : List String :=
  [("status"), ("message")]

/-- All interfaces declared by the api.ts client, each as its field list. -/
def apiInterfaceFieldSets : List (List String) :=
  [apiErrorFields, tradingSignalFields, marketContextFields,
   entryConditionFields, mtfAnalysisFields, decisionStepFields,
   riskMetricsFields, analysisResponseFields, signalSummaryFields]

/-- The artifact field list the specification documents (spec section 6):
    top-level asset, direction, confidence, entry, stopLoss, takeProfit,
    riskReward, positionSize, confirmation, decisionPath. -/
def specArtifactFields : List String :=
  [("asset"), ("direction"), ("confidence"), ("entry"), ("stopLoss"),
   ("takeProfit"), ("riskReward"), ("positionSize"), ("confirmation"),
   ("decisionPath")]

/-- The confirmation-object field list the specification documents. -/
def specConfirmationFields : List String :=
  [("entry"), ("direction"), ("achieved"), ("required"), ("confidence"),
   ("confirmations"), ("missing")]

/-- Mock entry-condition list of the dashboard (src/unnamed/part_001,
    mockDashboardData.entryConditions): four required conditions all met,
    two optional conditions of which only one is met. -/
def mockEntryConditions : List EntryCondition :=
  [ { name := ("Trend Aligned"), met := true, value := some ("MTF Bullish"), required := true }
  , { name := ("Near Support"), met := true, value := some ("4.2620"), required := true }
  , { name := ("RSI Not Overbought"), met := true, value := some ("RSI: 45"), required := true }
  , { name := ("VWAP Position"), met := true, value := some ("Above VWAP"), required := false }
  , { name := ("Sentiment Gate"), met := true, value := some ("Neutral"), required := true }
  , { name := ("Bollinger Confirmation"), met := false, value := some ("No signal"), required := false } ]

/-- Modelled from the spec: the backend Signal record (spec section 3);
    the Python signal producers are not part of the checked tree. The
    source category drives the regime weight multipliers of section 4.3. -/
inductive SourceCategory
  | sentiment
  | technical
  | momentum
  | meanReversion
deriving DecidableEq, Repr

/-- Modelled from the spec: a backend signal
    `\x7b sourceId, score, confidence, weight \x7d` (spec section 3),
    extended with its source category for weight adjustment. -/
structure Signal where
  sourceId : String
  category : SourceCategory
  score : ℚ
  confidence : ℚ
  weight : ℚ
deriving DecidableEq, Repr

/-- Modelled from the spec: the backend MarketContext (spec section 3).
    `activeSessions` is the session count; `shouldAvoidWindow` is the
    outcome of the avoidance-window predicate of section 4.1 (its
    calendar internals are out of the checked tree). -/
structure MarketContext where
  timestamp : String
  weekday : Nat
  activeSessions : Nat
  shouldAvoidWindow : Bool
  vix : ℚ
  adx : ℚ
  newsWithinWindow : Bool
deriving DecidableEq, Repr

/-- Modelled from the spec: the regime set of sections 3 and 4.2
    (LowVolatility is the "Ranging" regime). -/
inductive Regime
  | normal
  | highVolatility
  | lowVolatility
  | trending
  | newsWindow
deriving DecidableEq, Repr

/-- Modelled from the spec: a multi-timeframe trend direction
    (spec section 3, TimeframeTrend.direction). -/
inductive TrendDir
  | up
  | down
  | sideways
deriving DecidableEq, Repr

/-- Modelled from the spec: TimeframeTrend (spec section 3). -/
structure TimeframeTrend where
  timeframe : String
  direction : TrendDir
  strength : ℚ
deriving DecidableEq, Repr

/-- Modelled from the spec: MTF alignment classes (spec section 4.5). -/
inductive MtfAlignment
  | perfect
  | good
  | conflict
  | mixed
deriving DecidableEq, Repr

/-- Modelled from the spec: the configuration every pipeline invocation
    receives (sections 4.1-4.7; defaults as documented). -/
structure PipelineConfig where
  maxVix : ℚ := 30
  highVolThreshold : ℚ := 25
  trendingThreshold : ℚ := 25
  rangingThreshold : ℚ := 20
  buyThreshold : ℚ := 1/4
  dampeningFactor : ℚ := 3/10
  minOptional : Nat := 2
  slMultiplier : ℚ := 6/5
  tpMultiplier : ℚ := 12/5
  fixedPct : ℚ := 1/50
deriving DecidableEq, Repr

/-- The documented default configuration. -/
def defaultConfig : PipelineConfig := {}

/-- Modelled from the spec: the session gate of section 4.1,
    `allowed = activeSessions nonempty AND NOT shouldAvoidCurrentWindow`. -/
def sessionGateAllows (ctx : MarketContext) : Bool :=
  (0 < ctx.activeSessions) && !ctx.shouldAvoidWindow

/-- Modelled from the spec: the volatility gate of section 4.1,
    `allowed = vix ≤ maxVix`. -/
def volatilityGateAllows (cfg : PipelineConfig) (ctx : MarketContext) : Bool :=
  ctx.vix ≤ cfg.maxVix

/-- Modelled from the spec: the fixed-order short-circuiting gate chain of
    section 4.1; `some reason` means the first failing gate vetoed the run. -/
def gateCheck (cfg : PipelineConfig) (ctx : MarketContext) : Option String :=
  if !sessionGateAllows ctx then some ("Session gate failed")
  else if !volatilityGateAllows cfg ctx then some ("VIX above threshold")
  else none

/-- Modelled from the spec: the RegimeDetector of section 4.2, with the
    documented tie-break order HighVolatility over NewsWindow over
    Trending and Ranging over Normal. -/
def detectRegime (cfg : PipelineConfig) (vix adx : ℚ) (newsWithinWindow : Bool) : Regime :=
  if cfg.highVolThreshold < vix then Regime.highVolatility
  else if newsWithinWindow then Regime.newsWindow
  else if cfg.trendingThreshold < adx then Regime.trending
  else if adx < cfg.rangingThreshold then Regime.lowVolatility
  else Regime.normal

/-- Modelled from the spec: the regime weight-multiplier table of
    section 4.3 and the documentation's regime table. -/
def regimeMultiplier : Regime → SourceCategory → ℚ
  | Regime.trending, SourceCategory.momentum => 3/2
  | Regime.trending, SourceCategory.meanReversion => 3/10
  | Regime.lowVolatility, SourceCategory.meanReversion => 3/2
  | Regime.lowVolatility, SourceCategory.momentum => 7/10
  | Regime.highVolatility, SourceCategory.technical => 1/2
  | Regime.highVolatility, SourceCategory.momentum => 13/10
  | Regime.newsWindow, SourceCategory.sentiment => 2
  | Regime.newsWindow, SourceCategory.technical => 1/2
  | _, _ => 1

/-- Modelled from the spec: the WeightAdjuster of section 4.3 —
    multiplicative on the base weight and clamped at zero. -/
def adjustSignal (regime : Regime) (s : Signal) : Signal :=
  { s with weight := max 0 (s.weight * regimeMultiplier regime s.category) }

/-- Total weight of a signal set (the combiner's divisor, section 4.4). -/
def totalWeight (signals : List Signal) : ℚ :=
  (signals.map (fun s => s.weight)).sum

/-- The combiner's weighted numerator (section 4.4). -/
def weightedSum (signals : List Signal) : ℚ :=
  (signals.map (fun s => s.score * s.weight * s.confidence)).sum

/-- Modelled from the spec: the combiner score of section 4.4. The quotient
    is only formed when the total weight is nonzero; a zero total weight is
    the documented degenerate-input case and yields no score. -/
def aggregateScore (signals : List Signal) : Option ℚ :=
  if totalWeight signals = 0 then none
  else some (weightedSum signals / totalWeight signals)

/-- Modelled from the spec: the action thresholds of section 4.4. -/
def scoreToAction (cfg : PipelineConfig) (score : ℚ) : SignalDirection :=
  if cfg.buyThreshold < score then SignalDirection.long
  else if score < -cfg.buyThreshold then SignalDirection.short
  else SignalDirection.hold

/-- Modelled from the spec: the combiner outcome of section 4.4 — a zero
    total weight forces a Hold with score 0 and never forms the quotient. -/
def combine (cfg : PipelineConfig) (signals : List Signal) : SignalDirection × ℚ :=
  match aggregateScore signals with
  | none => (SignalDirection.hold, 0)
  | some sc => (scoreToAction cfg sc, sc)

/-- A timeframe trend agrees with the candidate direction. -/
def agreesWith (dir : TrendDir) (t : TimeframeTrend) : Bool :=
  t.direction == dir

/-- The opposite trend direction. -/
def oppositeDir : TrendDir → TrendDir
  | TrendDir.up => TrendDir.down
  | TrendDir.down => TrendDir.up
  | TrendDir.sideways => TrendDir.sideways

/-- Modelled from the spec: the MTF alignment classification of
    section 4.5, in the documented precedence (Perfect, then Good, then
    Conflict when a higher timeframe directly opposes, else Mixed). -/
def mtfAlignment (trends : List TimeframeTrend) (dir : TrendDir) : MtfAlignment :=
  let agree := (trends.filter (agreesWith dir)).length
  if agree = trends.length then MtfAlignment.perfect
  else if agree = 2 then MtfAlignment.good
  else if (trends.drop 1).any (fun t => t.direction == oppositeDir dir) then MtfAlignment.conflict
  else MtfAlignment.mixed

/-- Modelled from the spec: the MTF score multipliers of section 4.5. -/
def mtfMultiplier : MtfAlignment → ℚ
  | MtfAlignment.perfect => 13/10
  | MtfAlignment.good => 11/10
  | MtfAlignment.conflict => 3/10
  | MtfAlignment.mixed => 7/10

/-- Modelled from the spec: the MTF alignment confidences of section 4.5. -/
def mtfConfidenceOf : MtfAlignment → ℚ
  | MtfAlignment.perfect => 9/10
  | MtfAlignment.good => 7/10
  | MtfAlignment.conflict => 3/10
  | MtfAlignment.mixed => 1/2

/-- The trend direction a candidate action corresponds to. -/
def directionTrend : SignalDirection → TrendDir
  | SignalDirection.long => TrendDir.up
  | SignalDirection.short => TrendDir.down
  | SignalDirection.hold => TrendDir.sideways

/-- Modelled from the spec: the EntryConfirmationEvaluator verdict of
    section 4.6 — entry is confirmed iff all required conditions are
    satisfied and at least `minOptional` optional conditions are. -/
def specEntryConfirmed (conditions : List EntryCondition) (minOptional : Nat) : Bool :=
  (conditions.all (fun c => !c.required || c.met)) &&
    (minOptional ≤ (conditions.filter (fun c => !c.required && c.met)).length)

/-- Modelled from the spec: the evaluator confidence of section 4.6,
    `satisfiedCount / totalCount`. -/
def confirmationConfidence (conditions : List EntryCondition) : ℚ :=
  if conditions.length = 0 then 0
  else (metCount conditions : ℚ) / (conditions.length : ℚ)

/-- Modelled from the spec: the ATR stop and take-profit calculator of
    section 4.7. Returns (stopLoss, takeProfit, riskReward). -/
def atrLevels (entry atr slMultiplier tpMultiplier : ℚ) (isLong : Bool) : ℚ × ℚ × ℚ :=
  let dir : ℚ := if isLong then 1 else -1
  (entry - dir * (atr * slMultiplier),
   entry + dir * (atr * tpMultiplier),
   tpMultiplier / slMultiplier)

/-- Modelled from the spec: the Recommendation artifact (spec section 3). -/
structure Recommendation where
  asset : String
  action : SignalDirection
  score : ℚ
  confidence : ℚ
  entry : ℚ
  stopLoss : ℚ
  takeProfit : ℚ
  riskReward : ℚ
  positionSize : ℚ
  blockedReason : Option String
  decisionPath : List DecisionStep
  timestamp : String
deriving DecidableEq, Repr

/-- The per-run inputs the pipeline combines besides the market context:
    the signal set, the timeframe trends, the evaluated entry conditions,
    the entry price, the ATR and the available capital. -/
structure PipelineInput where
  signals : List Signal
  trends : List TimeframeTrend
  conditions : List EntryCondition
  entryPrice : ℚ
  atr : ℚ
  capital : ℚ
deriving DecidableEq, Repr

/-- Modelled from the spec: the DecisionEngine orchestration of
    section 4.8 — gates, regime detection, weight adjustment, combination,
    MTF adjustment, entry confirmation, risk sizing — producing one
    Recommendation; a failed gate is the Blocked terminal with
    blockedReason set and no signal combination. -/
def runPipeline (cfg : PipelineConfig) (asset : String) (ctx : MarketContext)
    (inp : PipelineInput) (now : String) : Recommendation :=
  match gateCheck cfg ctx with
  | some reason =>
      { asset := asset
        action := SignalDirection.hold
        score := 0
        confidence := 0
        entry := 0
        stopLoss := 0
        takeProfit := 0
        riskReward := 0
        positionSize := 0
        blockedReason := some reason
        decisionPath := [ { step := ("GateCheck"), passed := false, detail := reason } ]
        timestamp := now }
  | none =>
      let regime := detectRegime cfg ctx.vix ctx.adx ctx.newsWithinWindow
      let adjusted := inp.signals.map (adjustSignal regime)
      let combined := combine cfg adjusted
      let align := mtfAlignment inp.trends (directionTrend combined.1)
      let adjScore := combined.2 * mtfMultiplier align
      let action0 := scoreToAction cfg adjScore
      let confirmed := specEntryConfirmed inp.conditions cfg.minOptional
      let finalAction :=
        if action0 = SignalDirection.hold then SignalDirection.hold
        else if confirmed then action0 else SignalDirection.hold
      let levels :=
        if finalAction = SignalDirection.hold then ((0 : ℚ), (0 : ℚ), (0 : ℚ))
        else atrLevels inp.entryPrice inp.atr cfg.slMultiplier cfg.tpMultiplier
               (finalAction = SignalDirection.long)
      { asset := asset
        action := finalAction
        score := adjScore
        confidence := mtfConfidenceOf align * confirmationConfidence inp.conditions
        entry := if finalAction = SignalDirection.hold then 0 else inp.entryPrice
        stopLoss := levels.1
        takeProfit := levels.2.1
        riskReward := levels.2.2
        positionSize :=
          if finalAction = SignalDirection.hold then 0 else inp.capital * cfg.fixedPct
        blockedReason := none
        decisionPath :=
          [ { step := ("GateCheck"), passed := true, detail := ("all gates passed") }
          , { step := ("RegimeDetect"), passed := true, detail := ("regime detected") }
          , { step := ("Combine"), passed := true, detail := ("signals combined") }
          , { step := ("MTFAdjust"), passed := true, detail := ("score adjusted") }
          , { step := ("Confirm"), passed := confirmed, detail := ("entry confirmation") }
          , { step := ("Size"), passed := true, detail := ("risk sizing") } ]
        timestamp := now }

/-- A Recommendation with its timestamp field erased, for comparing two
    runs up to timestamp. -/
def stripTimestamp (r : Recommendation) : Recommendation :=
  { r with timestamp := ("") }

/-- Concrete contexts and inputs used by the witnesses below. -/
def highVixContext : MarketContext :=
  { timestamp := ("t0"), weekday := 2, activeSessions := 1,
    shouldAvoidWindow := false, vix := 35, adx := 20, newsWithinWindow := false }

/-- An empty per-run input. -/
def emptyInput : PipelineInput :=
  { signals := [], trends := [], conditions := [], entryPrice := 0, atr := 0, capital := 0 }

/-- A nonempty signal set whose total weight is zero. -/
def zeroWeightSignals : List Signal :=
  [ { sourceId := ("finbert"), category := SourceCategory.sentiment,
      score := 7/10, confidence := 17/20, weight := 0 }
  , { sourceId := ("technical"), category := SourceCategory.technical,
      score := -(3/10), confidence := 3/5, weight := 0 } ]

/-- A three-row MTF table with no timeframe aligned. -/
def mtfWeakExample : List MTFAnalysis :=
  [ { timeframe := ("1H"), trend := TrendDirection.bearish, signal := 0, aligned := false }
  , { timeframe := ("4H"), trend := TrendDirection.neutral, signal := 0, aligned := false }
  , { timeframe := ("1D"), trend := TrendDirection.neutral, signal := 0, aligned := false } ]

/-- Filtering on required-and-met never selects more conditions than
    filtering on required alone. -/
theorem length_filter_requiredMet_le (l : List EntryCondition) :
    (l.filter (fun c => c.required && c.met)).length
      ≤ (l.filter (fun c => c.required)).length := by
  induction l with
  | nil => simp
  | cons c l ih =>
    cases hr : c.required <;> cases hm : c.met <;>
      (simp [List.filter_cons, hr, hm]; omega)

/-- The checklist's `allRequiredMet` flag holds exactly when every
    required condition is met. -/
theorem allRequiredMet_iff (l : List EntryCondition) :
    allRequiredMet l = true ↔ ∀ c ∈ l, c.required = true → c.met = true := by
  unfold allRequiredMet requiredMet requiredTotal
  rw [beq_iff_eq]
  induction l with
  | nil => simp
  | cons c l ih =>
    have hb := length_filter_requiredMet_le l
    cases hr : c.required <;> cases hm : c.met <;>
      simp [List.filter_cons, hr, hm, ← ih] <;> omega

/-- C1: for every market context whose vix exceeds maxVix, the pipeline's
    result is a Hold recommendation with blockedReason set, and the result
    does not depend on the signal content at all — no combination happens
    after the gate fails. -/
theorem c1_vix_gate_blocks (cfg : PipelineConfig) (asset : String) (ctx : MarketContext)
    (inp : PipelineInput) (now : String) (h : cfg.maxVix < ctx.vix) :
    (runPipeline cfg asset ctx inp now).action = SignalDirection.hold
    ∧ (runPipeline cfg asset ctx inp now).blockedReason.isSome = true
    ∧ ∀ inp2 : PipelineInput,
        runPipeline cfg asset ctx inp2 now = runPipeline cfg asset ctx inp now := by
  have hvol : volatilityGateAllows cfg ctx = false := by
    simp [volatilityGateAllows, not_le.mpr h]
  obtain ⟨r, hr⟩ : ∃ r, gateCheck cfg ctx = some r := by
    cases hs : sessionGateAllows ctx
    · exact ⟨("Session gate failed"), by simp [gateCheck, hs]⟩
    · exact ⟨("VIX above threshold"), by simp [gateCheck, hs, hvol]⟩
  refine ⟨?_, ?_, ?_⟩
  · simp [runPipeline, hr]
  · simp [runPipeline, hr]
  · intro inp2
    simp [runPipeline, hr]

/-- C1 witness: the default configuration at vix 35 blocks the run. -/
theorem c1_vix_gate_blocks_witness :
    defaultConfig.maxVix < highVixContext.vix
    ∧ (runPipeline defaultConfig ("EUR/PLN") highVixContext emptyInput ("t1")).action
        = SignalDirection.hold
    ∧ (runPipeline defaultConfig ("EUR/PLN") highVixContext emptyInput ("t1")).blockedReason.isSome
        = true := by
  have h : defaultConfig.maxVix < highVixContext.vix := by
    norm_num [defaultConfig, highVixContext]
  have hc := c1_vix_gate_blocks defaultConfig ("EUR/PLN") highVixContext emptyInput ("t1") h
  exact ⟨h, hc.1, hc.2.1⟩

/-- C3: a signal set with total weight zero yields a Hold outcome with
    score 0, and the combiner forms no quotient on this input
    (aggregateScore is none, so the division is never evaluated). -/
theorem c3_zero_weight_hold (cfg : PipelineConfig) (signals : List Signal)
    (h : totalWeight signals = 0) :
    combine cfg signals = (SignalDirection.hold, (0 : ℚ))
    ∧ aggregateScore signals = none := by
  have ha : aggregateScore signals = none := by simp [aggregateScore, h]
  exact ⟨by simp [combine, ha], ha⟩

/-- C3 witness: a concrete nonempty zero-weight signal set is combined to
    Hold without forming the quotient. -/
theorem c3_zero_weight_hold_witness :
    totalWeight zeroWeightSignals = 0
    ∧ combine defaultConfig zeroWeightSignals = (SignalDirection.hold, (0 : ℚ))
    ∧ aggregateScore zeroWeightSignals = none := by
  have h : totalWeight zeroWeightSignals = 0 := by
    norm_num [totalWeight, zeroWeightSignals]
  have hc := c3_zero_weight_hold defaultConfig zeroWeightSignals h
  exact ⟨h, hc.1, hc.2⟩

/-- C4: the RegimeDetector resolves HighVolatility exactly when vix exceeds
    the high-volatility threshold (so news proximity cannot override it),
    NewsWindow exactly when vix does not and news is within the window, and
    any trend-based or normal regime only when both higher-priority
    conditions fail: the tie-break order is fixed for all inputs. -/
theorem c4_regime_tiebreak (cfg : PipelineConfig) (vix adx : ℚ) (news : Bool) :
    (detectRegime cfg vix adx news = Regime.highVolatility ↔ cfg.highVolThreshold < vix)
    ∧ (detectRegime cfg vix adx news = Regime.newsWindow ↔
        (vix ≤ cfg.highVolThreshold ∧ news = true))
    ∧ ((detectRegime cfg vix adx news = Regime.trending
        ∨ detectRegime cfg vix adx news = Regime.lowVolatility
        ∨ detectRegime cfg vix adx news = Regime.normal) ↔
        (vix ≤ cfg.highVolThreshold ∧ news = false)) := by
  unfold detectRegime
  split_ifs with h1 h2 h3 h4 <;> simp_all [not_lt]

/-- C9: the DecisionPath banner reads "Trade Signal Generated" exactly when
    every step passed, and the empty step list is reported as a generated
    trade signal (vacuous truth), not as "No Trade". -/
theorem c9_decision_path_result (steps : List DecisionStep) :
    (decisionPathResult steps = ("→ RESULT: Trade Signal Generated") ↔
      ∀ s ∈ steps, s.passed = true)
    ∧ decisionPathResult ([] : List DecisionStep) = ("→ RESULT: Trade Signal Generated") := by
  constructor
  · unfold decisionPathResult allPassed
    split_ifs with h
    · simp only [List.all_eq_true] at h
      simpa using h
    · have hne : ¬ ∀ s ∈ steps, s.passed = true := by
        simpa [List.all_eq_true] using h
      have hs : (("→ RESULT: No Trade") : String) ≠ ("→ RESULT: Trade Signal Generated") := by
        decide
      simp [hs, hne]
  · decide

/-- C10: the SignalCard distance computations divide by the entry price
    with no zero guard; on the dashboard's default HOLD placeholder signal,
    whose entry is 0, both distances are NaN, hence not finite. -/
theorem c10_default_signal_division_by_zero (asset now : String) :
    (defaultHoldSignal asset now).entry = 0
    ∧ slDistance (defaultHoldSignal asset now) = JSNumber.nan
    ∧ tpDistance (defaultHoldSignal asset now) = JSNumber.nan
    ∧ jsIsFinite (slDistance (defaultHoldSignal asset now)) = false
    ∧ jsIsFinite (tpDistance (defaultHoldSignal asset now)) = false := by
  refine ⟨rfl, ?_, ?_, ?_, ?_⟩ <;>
    simp [defaultHoldSignal, slDistance, tpDistance, jsSub, jsDiv, jsMul, jsIsFinite]

/-- C2 counterexample: on the dashboard's own mock entry-condition list
    (all four required conditions met, one of two optional conditions met),
    the checklist reports Entry Allowed although the documented rule —
    all required AND at least the default minimum of optional conditions —
    is not satisfied, so the claimed equivalence fails at this input. -/
theorem c2_checklist_counterexample :
    allRequiredMet mockEntryConditions = true
    ∧ entryChecklistVerdict mockEntryConditions = ("✅ Entry Allowed")
    ∧ specEntryConfirmed mockEntryConditions defaultConfig.minOptional = false
    ∧ ¬ ((entryChecklistVerdict mockEntryConditions = ("✅ Entry Allowed")) ↔
          specEntryConfirmed mockEntryConditions defaultConfig.minOptional = true) := by
  decide

/-- C2 amended: the checklist reports Entry Allowed exactly when every
    required condition is met — the optional-condition count plays no role
    in the verdict; in particular any unmet required condition forces the
    waiting verdict regardless of optional conditions. -/
theorem c2_entry_allowed_iff_required (conditions : List EntryCondition) :
    entryChecklistVerdict conditions = ("✅ Entry Allowed") ↔
      ∀ c ∈ conditions, c.required = true → c.met = true := by
  rw [← allRequiredMet_iff]
  unfold entryChecklistVerdict
  split_ifs with h
  · simp [h]
  · have hs : (("⚠️ Waiting for conditions") : String) ≠ ("✅ Entry Allowed") := by decide
    simp [hs, h]

/-- C5 counterexample: a three-timeframe table with no aligned row is
    classified "Weak" by the dashboard, a class outside the documented set
    Perfect, Good, Conflict, Mixed. -/
theorem c5_mtf_weak_counterexample :
    mtfAlignmentLabel mtfWeakExample = ("Weak")
    ∧ mtfAlignmentLabel mtfWeakExample ∉
        ([("Perfect"), ("Good"), ("Conflict"), ("Mixed")] : List String) := by
  decide

/-- C5 amended: the dashboard's MTF classification is total and mutually
    exclusive over the three classes Perfect, Good, Weak — each input maps
    to exactly one class, characterized by its aligned-row count. -/
theorem c5_mtf_three_class_total (analysis : List MTFAnalysis) :
    (mtfAlignmentLabel analysis = ("Perfect") ↔ alignedCount analysis = analysis.length)
    ∧ (mtfAlignmentLabel analysis = ("Good") ↔
        (alignedCount analysis ≠ analysis.length ∧ 2 ≤ alignedCount analysis))
    ∧ (mtfAlignmentLabel analysis = ("Weak") ↔
        (alignedCount analysis ≠ analysis.length ∧ alignedCount analysis < 2)) := by
  have hgp : (("Good") : String) ≠ ("Perfect") := by decide
  have hwp : (("Weak") : String) ≠ ("Perfect") := by decide
  have hwg : (("Weak") : String) ≠ ("Good") := by decide
  unfold mtfAlignmentLabel
  split_ifs with h1 h2 <;> simp_all [not_le]

/-- C6: the risk calculator returns stopLoss = entry − atr×slMultiplier and
    takeProfit = entry + atr×tpMultiplier for Long, the signs flipped for
    Short, and riskReward = tpMultiplier / slMultiplier; at ATR 0.02,
    entry 4.35, long, multipliers 1.2 and 2.4 it returns 4.326, 4.398, 2. -/
theorem c6_atr_levels_formula (entry atr slM tpM : ℚ) :
    atrLevels entry atr slM tpM true = (entry - atr * slM, entry + atr * tpM, tpM / slM)
    ∧ atrLevels entry atr slM tpM false = (entry + atr * slM, entry - atr * tpM, tpM / slM)
    ∧ atrLevels (4.35 : ℚ) (0.02 : ℚ) (1.2 : ℚ) (2.4 : ℚ) true
        = ((4.326 : ℚ), (4.398 : ℚ), (2 : ℚ)) := by
  refine ⟨?_, ?_, ?_⟩
  · simp [atrLevels, Prod.ext_iff]
  · simp [atrLevels, Prod.ext_iff, sub_eq_add_neg]
  · simp [atrLevels, Prod.ext_iff]
    norm_num

/-- C7 counterexample: no interface declared by the api.ts client — in
    particular neither AnalysisResponse nor TradingSignal — has a
    confirmation field, and the documented top-level artifact field list is
    not contained in AnalysisResponse, so the artifact does not round-trip
    as documented. -/
theorem c7_confirmation_missing :
    ("confirmation") ∉ analysisResponseFields
    ∧ ("confirmation") ∉ tradingSignalFields
    ∧ (∀ fs ∈ apiInterfaceFieldSets, ("confirmation") ∉ fs)
    ∧ ¬ (∀ f ∈ specArtifactFields, f ∈ analysisResponseFields) := by
  decide

/-- C7 amended: the client's analysis artifact nests asset, direction,
    confidence, entry, stopLoss, takeProfit, riskReward and positionSize
    inside its signal object, carries decisionPath with step/passed/detail
    records, and declares no confirmation object anywhere — no interface
    of the client contains the documented confirmation field set. -/
theorem c7_api_artifact_fields :
    (∀ f ∈ ([("asset"), ("direction"), ("confidence"), ("entry"), ("stopLoss"),
             ("takeProfit"), ("riskReward"), ("positionSize")] : List String),
        f ∈ tradingSignalFields)
    ∧ ("signal") ∈ analysisResponseFields
    ∧ ("decisionPath") ∈ analysisResponseFields
    ∧ decisionStepFields = [("step"), ("passed"), ("detail")]
    ∧ (∀ fs ∈ apiInterfaceFieldSets, ("confirmation") ∉ fs)
    ∧ (∀ fs ∈ apiInterfaceFieldSets, ¬ (∀ f ∈ specConfirmationFields, f ∈ fs)) := by
  decide

/-- C8: the pipeline is a deterministic function of its inputs — two runs
    on identical configuration, context and per-run inputs produce the same
    Recommendation once the timestamp field is excluded, whatever clock
    values the two runs receive. -/
theorem c8_pipeline_deterministic (cfg : PipelineConfig) (asset : String)
    (ctx : MarketContext) (inp : PipelineInput) (t1 t2 : String) :
    stripTimestamp (runPipeline cfg asset ctx inp t1)
      = stripTimestamp (runPipeline cfg asset ctx inp t2) := by
  cases hg : gateCheck cfg ctx <;> simp [runPipeline, stripTimestamp, hg]

end TradingSystem
